import Mathlib

/-!
# Verification development for the Sonauto proxy server

Shallow embedding of the task-tracking proxy server
(`server.js` — "Sonauto Proxy PRO", Node.js / JavaScript) into Lean 4,
with theorems settling the specification claims.

Conventions of the embedding:
* JS `undefined`-able fields become `Option` types; JS truthiness of a
  string value (`payload.x || d`, `!payload.x`) is modelled by `truthy` /
  `truthyGetD` (the empty string is falsy, like in JS).
* Numeric fields use `ℚ`/`ℕ`; `payload.n || d` on numbers is modelled by
  `numGetD` / `ratGetD` (`0` is falsy in JS).
* Template interpolation of a JS number (`` `${j + 1}` ``) is modelled by
  `natToString`, the usual base-10 rendering.
* Network effects (upstream `fetch`) are passed in as explicit function
  parameters; handlers whose claims mention outbound traffic also return
  the number of outbound fetches they performed.
* URL parsing (`new URL(u).hostname`) is abstracted: handlers that need a
  hostname take the parsed hostname (`none` models a parse failure).
-/

namespace SonautoProxy

/-! ## JS-semantics helpers -/

/-- JS truthiness of an optional string: `undefined` and `""` are falsy. -/
def truthy : Option String → Bool
  | none => false
  | some s => !s.isEmpty

/-- Model of `x || d` for an optional string field, with JS truthiness. -/
def truthyGetD (x : Option String) (d : String) : String :=
  if truthy x then x.getD d else d

/-- Model of `x || d` for an optional JS number field: `undefined` and `0` are falsy. -/
def numGetD (x : Option ℕ) (d : ℕ) : ℕ :=
  match x with
  | none => d
  | some 0 => d
  | some n => n

/-- Model of `x || d` for an optional rational parameter: `undefined` and `0` are falsy. -/
def ratGetD (x : Option ℚ) (d : ℚ) : ℚ :=
  match x with
  | none => d
  | some q => if q = 0 then d else q

/-- JS template interpolation of a possibly-undefined string
(`` `${payload.lyrics}` `` renders `undefined` as the string "undefined"). -/
def jsInterp : Option String → String
  | none => "undefined"
  | some s => s

/-- Little-endian base-10 digit list, by structural recursion on a fuel
argument so it evaluates by kernel reduction (`Nat.digits` is well-founded
recursion and does not). `digitsAux fuel m = Nat.digits 10 m` when `m ≤ fuel`. -/
def digitsAux : ℕ → ℕ → List ℕ
  | 0, _ => []
  | fuel + 1, m => if m = 0 then [] else m % 10 :: digitsAux fuel (m / 10)

/-- Base-10 rendering of a natural number, as JS template interpolation
(`` `${n}` ``) produces it. -/
def natToString (n : ℕ) : String :=
  if n = 0 then "0" else ⟨((digitsAux n n).map Nat.digitChar).reverse⟩

/-- JS `String.prototype.startsWith`, modelled on the character list. -/
def strStartsWith (s pre : String) : Bool :=
  pre.data.isPrefixOf s.data

/-- JS `String.prototype.endsWith`, modelled on the character list. -/
def strEndsWith (s suffix : String) : Bool :=
  suffix.data.isSuffixOf s.data

/-! ## Task Tracker / Poller (`handlePolling`, `server.js` lines 450–494)

The JS loop is
```js
const maxAttempts = Number(process.env.MAX_POLL_ATTEMPTS) || 60;
const baseDelay   = Number(process.env.POLL_BASE_DELAY_MS) || 4000;
let attempt = 0;
try {
  while (attempt < maxAttempts) {
    attempt++;
    const statusRes = await apiCall(`/generations/` + taskId, 'GET');
    if (statusRes.status === 'SUCCESS') {
      const song_paths = statusRes.song_paths || [];
      for (let j = 0; j < song_paths.length; j++) {
        const baseName = mode === 'custom' ? 'custom_lyrics'
          : (mode === 'prompt' ? 'prompt_generated' : 'instrumental');
        const filename = baseName + '_' + taskId + '_' + (j + 1) + '.mp3';
        if (AUTO_DOWNLOAD) {
          try { await downloadAndSaveTrack(url, filename); }
          catch (err) { log('Save failed', ...); }
        }
      }
      return;
    }
    if (statusRes.status === 'FAILURE') { return; }
    const delay = Math.min(baseDelay * Math.pow(1.2, attempt), 20000);
    await new Promise((r) => setTimeout(r, delay));
  }
  log('Polling timeout', ...);
} catch (err) { log('Polling error', ...); }
```
The embedding makes the outbound status responses a parameter
(`fetch : ℕ → PollStep`, indexed by the 1-based attempt number), makes the
success/failure of each per-artifact `downloadAndSaveTrack` call a parameter
(`saveOk : ℕ → Bool`, indexed by the 0-based output index), and produces an
event trace plus the outcome that ends the run. -/

/-- One upstream `apiCall('/generations/<id>')` result: either a parsed body
(with its `status` string and `song_paths || []`), or a thrown error. -/
inductive PollStep where
  | ok (status : String) (song_paths : List String)
  | thrown (msg : String)
deriving DecidableEq, Repr

/-- Events of one polling run, in order. -/
inductive PollEvent where
  /-- an outbound `fetchStatus` call, with its 1-based attempt number -/
  | fetchStatus (attempt : ℕ)
  /-- a `downloadAndSaveTrack` attempt for output index `j` (0-based) -/
  | saveAttempt (j : ℕ) (filename : String) (ok : Bool)
  /-- a backoff sleep of the given duration (ms) -/
  | wait (delay : ℚ)
  /-- the run ended with the given terminal outcome -/
  | terminal (outcome : String)
deriving DecidableEq, Repr

/-- How a polling run ends: the `SUCCESS` branch returned, the `FAILURE`
branch returned, the attempt bound was exhausted, or an exception was caught. -/
inductive PollOutcome where
  | completed
  | failed
  | timedOut
  | errored (msg : String)
deriving DecidableEq, Repr

/-- Rendering of an outcome for the `terminal` trace event. -/
def PollOutcome.tag : PollOutcome → String
  | .completed => "SUCCESS"
  | .failed => "FAILURE"
  | .timedOut => "TIMEOUT"
  | .errored _ => "ERROR"

/-- Whether the outcome is one of the spec's three terminal states
(`SUCCESS`, `FAILURE`, `TIMEOUT`) rather than a caught exception. -/
def PollOutcome.isSFT : PollOutcome → Bool
  | .errored _ => false
  | _ => true

/-- The ternary
`mode === 'custom' ? 'custom_lyrics' : (mode === 'prompt' ? 'prompt_generated' : 'instrumental')`. -/
def baseName (mode : String) : String :=
  if mode = "custom" then "custom_lyrics"
  else if mode = "prompt" then "prompt_generated"
  else "instrumental"

/-- The filename `` `${baseName}_${taskId}_${j + 1}.mp3` ``
(`j` is the 0-based output index). -/
def pollFilename (mode taskId : String) (j : ℕ) : String :=
  baseName mode ++ "_" ++ taskId ++ "_" ++ natToString (j + 1) ++ ".mp3"

/-- The backoff `Math.min(baseDelay * Math.pow(1.2, attempt), 20000)`. -/
def backoffDelay (base : ℚ) (attempt : ℕ) : ℚ :=
  min (base * (6 / 5) ^ attempt) 20000

/-- The save loop of the `SUCCESS` branch: one `saveAttempt` event per output
index when `AUTO_DOWNLOAD` is on (a failed save is caught and logged inside
the loop, so every index is attempted); no events otherwise. -/
def saveEvents (autoDownload : Bool) (mode taskId : String) (saveOk : ℕ → Bool)
    (numPaths : ℕ) : List PollEvent :=
  if autoDownload then
    (List.range numPaths).map (fun j => .saveAttempt j (pollFilename mode taskId j) (saveOk j))
  else []

/-- The `while (attempt < maxAttempts)` loop; `fuel` is the number of loop
iterations still allowed, `attempt` the number already performed. -/
def pollAux (baseDelay : ℚ) (autoDownload : Bool) (fetch : ℕ → PollStep)
    (saveOk : ℕ → Bool) (mode taskId : String) :
    (fuel attempt : ℕ) → List PollEvent × PollOutcome
  | 0, _ => ([.terminal PollOutcome.timedOut.tag], .timedOut)
  | fuel + 1, attempt =>
    let a := attempt + 1
    match fetch a with
    | .thrown msg => ([.fetchStatus a, .terminal (PollOutcome.errored msg).tag], .errored msg)
    | .ok status song_paths =>
      if status = "SUCCESS" then
        (.fetchStatus a :: saveEvents autoDownload mode taskId saveOk song_paths.length
          ++ [.terminal PollOutcome.completed.tag], .completed)
      else if status = "FAILURE" then
        ([.fetchStatus a, .terminal PollOutcome.failed.tag], .failed)
      else
        let rest := pollAux baseDelay autoDownload fetch saveOk mode taskId fuel a
        (.fetchStatus a :: .wait (backoffDelay baseDelay a) :: rest.1, rest.2)

/-- Model of `handlePolling(taskId, mode)`: run the loop with `attempt = 0`
and `maxAttempts` iterations of fuel. -/
def handlePolling (maxAttempts : ℕ) (baseDelay : ℚ) (autoDownload : Bool)
    (fetch : ℕ → PollStep) (saveOk : ℕ → Bool) (mode taskId : String) :
    List PollEvent × PollOutcome :=
  pollAux baseDelay autoDownload fetch saveOk mode taskId maxAttempts 0

/-- The backoff sleeps of a trace, in order. -/
def waitDelays (evs : List PollEvent) : List ℚ :=
  evs.filterMap (fun e => match e with | .wait d => some d | _ => none)

/-- The number of outbound `fetchStatus` calls in a trace. -/
def fetchCount (evs : List PollEvent) : ℕ :=
  evs.countP (fun e => match e with | .fetchStatus _ => true | _ => false)

/-- The `saveAttempt` events of a trace, projected to (index, filename, ok). -/
def savesOf (evs : List PollEvent) : List (ℕ × String × Bool) :=
  evs.filterMap (fun e => match e with | .saveAttempt j f b => some (j, f, b) | _ => none)

/-- Whether an event is the terminal marker. -/
def PollEvent.isTerminal : PollEvent → Bool
  | .terminal _ => true
  | _ => false

/-! ## Artifact Store: `downloadAndSaveTrack` (`server.js` lines 93–116)

```js
async function downloadAndSaveTrack(trackUrl, filename) {
  const res = await fetch(trackUrl);
  if (!res.ok) throw new Error(`Download failed (` + res.status + `)`);
  const filePath = path.join(OUTPUT_DIR, filename);
  const fileStream = fs.createWriteStream(filePath);
  await streamPipeline(res.body, fileStream);
  if (USE_S3 && s3) {
    const fileBody = fs.readFileSync(filePath);
    const params = { Bucket: ..., Key: `sonauto/` + filename, ... };
    await s3.putObject(params).promise();
    return { path: filePath, s3Key: params.Key };
  }
  return { path: filePath };
}
```
The outcomes of the three effects (upstream fetch, local stream-to-file,
remote S3 mirror) are parameters. Note the `await s3.putObject(...)` is not
wrapped in any try/catch inside this function. -/

/-- Effect outcomes for one `downloadAndSaveTrack` run. -/
structure SaveEnv where
  /-- Value of `res.ok` for the `fetch(trackUrl)` call -/
  fetchOk : Bool
  /-- whether `streamPipeline(res.body, fileStream)` resolves -/
  writeOk : Bool
  /-- Value of `USE_S3 && s3` -/
  mirrorEnabled : Bool
  /-- whether `s3.putObject(params).promise()` resolves -/
  mirrorOk : Bool
deriving DecidableEq, Repr

/-- What `downloadAndSaveTrack` produces: its return value, or a thrown /
rejected error that propagates to the caller. -/
inductive SaveOutcome where
  | saved (path : String) (s3Key : Option String)
  | threw (msg : String)
deriving DecidableEq, Repr

/-- Model of `downloadAndSaveTrack(trackUrl, filename)`. The second component
records whether the primary local file write completed. -/
def downloadAndSaveTrack (env : SaveEnv) (filename : String) : SaveOutcome × Bool :=
  if ¬env.fetchOk then (.threw "Download failed", false)
  else if ¬env.writeOk then (.threw "stream pipeline failed", false)
  else if env.mirrorEnabled then
    if env.mirrorOk then
      (.saved ("songs/" ++ filename) (some ("sonauto/" ++ filename)), true)
    else
      (.threw "s3 putObject rejected", true)
  else (.saved ("songs/" ++ filename) none, true)

/-! ## SSRF allow-list: `isAllowedTrackHostname` (`server.js` lines 119–126)

```js
function isAllowedTrackHostname(trackUrl) {
  try {
    const u = new URL(trackUrl);
    return u.hostname.endsWith('sonauto.ai') || u.hostname.includes('sonauto.ai');
  } catch (e) { return false; }
}
```
URL parsing is abstracted: the function takes the parsed hostname, with
`none` for a `new URL` failure. -/

/-- Substring search on character lists: does `sub` occur contiguously in `l`? -/
def hasSubstrAux (sub : List Char) : List Char → Bool
  | [] => sub.isEmpty
  | c :: rest => sub.isPrefixOf (c :: rest) || hasSubstrAux sub rest

/-- JS `String.prototype.includes`: substring containment. -/
def strIncludes (s sub : String) : Bool :=
  hasSubstrAux sub.data s.data

/-- Model of `isAllowedTrackHostname`, on the parsed hostname of the URL. -/
def isAllowedTrackHostname (hostname : Option String) : Bool :=
  match hostname with
  | none => false
  | some h => strEndsWith h "sonauto.ai" || strIncludes h "sonauto.ai"

/-! ## `GET /download?url=...` handler (`server.js` lines 314–347) -/

/-- Outcome of the proxied `fetch(trackUrl)`. -/
inductive FetchResult where
  | ok (contentType : Option String)
  | httpError (code : ℕ)
  | threw (msg : String)
deriving DecidableEq, Repr

/-- Response of the `/download?url=` route. -/
inductive DownloadUrlResponse where
  /-- Status 400, `Missing url query parameter` -/
  | missingParam
  /-- Status 400, `Track URL not allowed` -/
  | notAllowed
  /-- Status 502, `Failed to fetch track (...)` -/
  | badGateway (code : ℕ)
  /-- Status 200, streaming the upstream body -/
  | streamed (contentType : String)
  /-- Status 500 (the proxied fetch threw) -/
  | serverError (msg : String)
deriving DecidableEq, Repr

/-- Model of the `/download?url=` handler. `hostnameOf` is the URL parser
(hostname extraction), `fetchTrack` the outbound fetch; the second component
counts outbound fetches performed. -/
def downloadUrlHandler (urlParam : Option String) (hostnameOf : String → Option String)
    (fetchTrack : String → FetchResult) : DownloadUrlResponse × ℕ :=
  if ¬truthy urlParam then (.missingParam, 0)
  else
    let u := urlParam.getD ""
    if ¬isAllowedTrackHostname (hostnameOf u) then (.notAllowed, 0)
    else
      match fetchTrack u with
      | .ok ct => (.streamed (ct.getD "audio/mpeg"), 1)
      | .httpError code => (.badGateway code, 1)
      | .threw m => (.serverError m, 1)

/-! ## `encodeURIComponent` (used by the `/status` handler's mock download URL) -/

/-- Characters `encodeURIComponent` leaves unescaped:
`A–Z a–z 0–9 - _ . ! ~ * ' ( )`. -/
def uriUnreserved (ch : Char) : Bool :=
  (('A' ≤ ch && ch ≤ 'Z') || ('a' ≤ ch && ch ≤ 'z') || ('0' ≤ ch && ch ≤ '9')
    || ch = '-' || ch = '_' || ch = '.' || ch = '!' || ch = '~' || ch = '*'
    || ch = '\'' || ch = '(' || ch = ')')

/-- Uppercase hexadecimal digit. -/
def hexChar (n : ℕ) : Char :=
  if n < 10 then Char.ofNat (48 + n) else Char.ofNat (55 + n)

/-- Percent-escape of one byte: `%XY` with uppercase hex. -/
def byteHex (b : ℕ) : List Char :=
  ['%', hexChar (b / 16), hexChar (b % 16)]

/-- UTF-8 bytes of one character (standard 1–4 byte encoding). -/
def utf8Bytes (ch : Char) : List ℕ :=
  let c := ch.toNat
  if c < 128 then [c]
  else if c < 2048 then [192 + c / 64, 128 + c % 64]
  else if c < 65536 then [224 + c / 4096, 128 + (c / 64) % 64, 128 + c % 64]
  else [240 + c / 262144, 128 + (c / 4096) % 64, 128 + (c / 64) % 64, 128 + c % 64]

/-- Encoding of one character as `encodeURIComponent` does it. -/
def encChar (ch : Char) : List Char :=
  if uriUnreserved ch then [ch] else ((utf8Bytes ch).map byteHex).flatten

/-- Model of JS `encodeURIComponent`. -/
def encodeURIComponent (s : String) : String :=
  ⟨(s.data.map encChar).flatten⟩

/-! ## `GET /status/:taskId` handler (`server.js` lines 253–289)

```js
const taskId = pathname.split('/')[2];
if (taskId.startsWith('acestep-')) {
  const expectedPath = path.join(OUTPUT_DIR, `${taskId}.mp3`);
  if (fs.existsSync(expectedPath)) {
    let dlUrl = `/download/${encodeURIComponent(taskId)}`;
    res.end(JSON.stringify({ status: 'SUCCESS', song_paths: [dlUrl] }));
  } else {
    res.end(JSON.stringify({ status: 'PROCESSING' }));
  }
  return;
}
try {
  if (!API_KEY) throw new Error('Missing Sonauto API key');
  const statusRes = await apiCall(`/generations/${taskId}`, 'GET');
  res.end(JSON.stringify(statusRes));          // 200, upstream body forwarded
} catch (err) {
  res.writeHead(400, ...); res.end({status:'ERROR', message});
}
``` -/

/-- Response of the `/status/:taskId` route. -/
inductive StatusResponse where
  /-- Status 200, `{status: 'SUCCESS', song_paths: [dlUrl]}` mocked for a stored acestep artifact -/
  | mockSuccess (song_paths : List String)
  /-- Status 200, `{status: 'PROCESSING'}` mocked for a missing acestep artifact -/
  | mockProcessing
  /-- Status 200, the upstream status body forwarded verbatim -/
  | forwarded (status : String) (song_paths : List String)
  /-- Status 400, `{status: 'ERROR', message}` -/
  | clientError (message : String)
deriving DecidableEq, Repr

/-- Model of the `/status/:taskId` handler. `fileExists` is the store
existence check, `upstream` the live Sonauto status query; the second
component counts outbound upstream calls performed. -/
def statusHandler (apiKeyPresent : Bool) (fileExists : String → Bool)
    (upstream : String → PollStep) (taskId : String) : StatusResponse × ℕ :=
  if strStartsWith taskId "acestep-" then
    if fileExists (taskId ++ ".mp3") then
      (.mockSuccess ["/download/" ++ encodeURIComponent taskId], 0)
    else
      (.mockProcessing, 0)
  else if apiKeyPresent then
    match upstream taskId with
    | .ok st sp => (.forwarded st sp, 1)
    | .thrown m => (.clientError m, 1)
  else (.clientError "Missing Sonauto API key", 0)

/-- Whether a status response reports `FAILURE` (only a forwarded upstream
body can). -/
def StatusResponse.isFailure : StatusResponse → Bool
  | .forwarded st _ => st = "FAILURE"
  | _ => false

/-! ## `POST /generate` handler (`server.js` lines 163–250 and 356–448) -/

/-- Parsed JSON body of a generation request. Absent fields are `none`;
`instrumental` models the JS truthiness of `payload.instrumental`. -/
structure GeneratePayload where
  engine : Option String := none
  mode : Option String := none
  prompt : Option String := none
  lyrics : Option String := none
  tags : Option (List String) := none
  num_songs : Option ℕ := none
  prompt_strength : Option ℚ := none
  balance_strength : Option ℚ := none
  instrumental : Bool := false
  duration : Option ℕ := none
deriving DecidableEq, Repr

/-- The payload sent to `POST /generations` on the Sonauto API. -/
structure SonautoPayload where
  prompt : Option String := none
  lyrics : Option String := none
  tags : Option (List String) := none
  instrumental : Bool
  num_songs : ℕ
  output_format : String
  prompt_strength : ℚ
  balance_strength : ℚ
deriving DecidableEq, Repr

/-- Default tag list `['pop', 'emotional', 'modern']`. -/
def defaultTags : List String := ["pop", "emotional", "modern"]

/-- The single user-message content built for the ACE-Step backend call. -/
def acestepContent (p : GeneratePayload) : String :=
  if p.mode = some "instrumental" then
    "<prompt>" ++ truthyGetD p.prompt "A calm instrumental composition"
      ++ "</prompt><lyrics>[inst]</lyrics>"
  else if p.mode = some "custom" then
    (if truthy p.prompt then "<prompt>" ++ jsInterp p.prompt ++ "</prompt>" else "")
      ++ "<lyrics>" ++ jsInterp p.lyrics ++ "</lyrics>"
  else
    truthyGetD p.prompt "A pop song"

/-- The ACE-Step backend request derived from the payload
(`handleAcestepGeneration`, lines 367–392). -/
structure AcestepCall where
  content : String
  instrumental : Bool
  duration : ℕ
deriving DecidableEq, Repr

/-- What the `/generate` route decides to do before/instead of contacting the
polling provider. -/
inductive GenerateAction where
  /-- the acestep branch: respond `{taskId}` at once, call the ACE-Step backend in background -/
  | acestep (call : AcestepCall)
  /-- respond 400 `{status: 'ERROR', message}`; no outbound call, no task -/
  | reject (message : String)
  /-- submit the built payload to `POST /generations` on Sonauto -/
  | submitSonauto (sp : SonautoPayload)
deriving DecidableEq, Repr

/-- Model of `payload.engine || 'sonauto'`. -/
def engineOf (p : GeneratePayload) : String :=
  truthyGetD p.engine "sonauto"

/-- Validation / payload-construction phase of the `/generate` handler
(`server.js` lines 180–227), up to the first outbound call. -/
def routeGenerate (apiKeyPresent : Bool) (p : GeneratePayload) : GenerateAction :=
  if engineOf p = "acestep" then
    .acestep ⟨acestepContent p,
      (decide (p.mode = some "instrumental") || p.instrumental),
      numGetD p.duration 60⟩
  else if ¬apiKeyPresent then
    .reject "Server missing Sonauto API key (EXPO_PUBLIC_SONAUTO_API_KEY)"
  else if ¬truthy p.mode then
    .reject "Mode missing (custom/prompt/instrumental)"
  else if p.mode = some "instrumental" then
    .submitSonauto
      { prompt := some (truthyGetD p.prompt
          "A calm instrumental composition with warm piano and ambient sounds.")
        instrumental := true
        num_songs := numGetD p.num_songs 2
        output_format := "mp3"
        prompt_strength := ratGetD p.prompt_strength 2
        balance_strength := ratGetD p.balance_strength (7 / 10) }
  else if p.mode = some "prompt" then
    if ¬truthy p.prompt then .reject "Prompt missing for prompt mode"
    else
      .submitSonauto
        { prompt := p.prompt
          tags := some (p.tags.getD defaultTags)
          instrumental := false
          num_songs := numGetD p.num_songs 2
          output_format := "mp3"
          prompt_strength := ratGetD p.prompt_strength 2
          balance_strength := ratGetD p.balance_strength (7 / 10) }
  else if p.mode = some "custom" then
    if ¬truthy p.lyrics then .reject "Lyrics missing for custom mode"
    else
      .submitSonauto
        { lyrics := p.lyrics
          tags := some (p.tags.getD defaultTags)
          instrumental := false
          num_songs := numGetD p.num_songs 2
          output_format := "mp3"
          prompt_strength := ratGetD p.prompt_strength (8 / 5)
          balance_strength := ratGetD p.balance_strength (7 / 10) }
  else
    .reject "Unknown mode"

/-- Whether the action is a 400 rejection. -/
def GenerateAction.isReject : GenerateAction → Bool
  | .reject _ => true
  | _ => false

/-- Outbound provider calls the `/generate` route makes for this payload
(0 on rejection: the throw happens before any `fetch`). -/
def generateOutbound (apiKeyPresent : Bool) (p : GeneratePayload) : ℕ :=
  match routeGenerate apiKeyPresent p with
  | .reject _ => 0
  | _ => 1

/-- Result of the `apiCall('/generations', 'POST', ...)` submission:
a parsed body (possibly carrying `task_id` and/or `id`), or a thrown error. -/
inductive UpstreamGen where
  | ok (task_id : Option String) (id : Option String)
  | thrown (msg : String)
deriving DecidableEq, Repr

/-- HTTP response of the `/generate` route. -/
inductive GenerateResponse where
  /-- Status 401, `{status: 'ERROR', message: 'Unauthorized (invalid client key)'}` -/
  | unauthorized
  /-- Status 200, `{status: 'SUBMITTED', taskId}` -/
  | submitted (taskId : String)
  /-- Status 200, `{taskId}` — the acestep branch's body carries no `status` field -/
  | acestepAccepted (taskId : String)
  /-- Status 400, `{status: 'ERROR', message}` -/
  | badRequest (message : String)
  /-- Status 502, `{status: 'ERROR', message: 'Invalid generation response', ...}` -/
  | badGateway (message : String)
deriving DecidableEq, Repr

/-- Model of the full `/generate` handler. `clientKeyOk` is the
`CLIENT_API_KEY` header check (true when no key is configured), `upstream`
the Sonauto submission call, `now` the `Date.now()` value used for the
acestep task id. -/
def generateHandler (clientKeyOk apiKeyPresent : Bool) (p : GeneratePayload)
    (upstream : SonautoPayload → UpstreamGen) (now : ℕ) : GenerateResponse :=
  if ¬clientKeyOk then .unauthorized
  else
    match routeGenerate apiKeyPresent p with
    | .acestep _ => .acestepAccepted ("acestep-" ++ natToString now)
    | .reject m => .badRequest m
    | .submitSonauto sp =>
      match upstream sp with
      | .thrown m => .badRequest m
      | .ok tid id =>
        if truthy tid then .submitted (jsInterp tid)
        else if truthy id then .submitted (jsInterp id)
        else .badGateway "Invalid generation response"

/-- Whether the response accepts the request (a 200 with a task id). -/
def GenerateResponse.isAccepted : GenerateResponse → Bool
  | .submitted _ => true
  | .acestepAccepted _ => true
  | _ => false

/-- Whether the response body is `{status: 'SUBMITTED', taskId}`. -/
def GenerateResponse.isSubmittedBody : GenerateResponse → Bool
  | .submitted _ => true
  | _ => false


/-! ### Polling-loop lemmas -/

theorem savesOf_mapSave (fn : ℕ → String) (s : ℕ → Bool) : ∀ l : List ℕ,
    savesOf (l.map fun j => PollEvent.saveAttempt j (fn j) (s j))
      = l.map fun j => (j, fn j, s j) := by
  intro l
  induction l with
  | nil => rfl
  | cons a l ih => simp [savesOf, List.filterMap_cons] at ih ⊢; exact ih

theorem waitDelays_mapSave (fn : ℕ → String) (s : ℕ → Bool) : ∀ l : List ℕ,
    waitDelays (l.map fun j => PollEvent.saveAttempt j (fn j) (s j)) = [] := by
  intro l
  induction l with
  | nil => rfl
  | cons a l ih => simp [waitDelays, List.filterMap_cons, ih]

theorem fetchCount_mapSave (fn : ℕ → String) (s : ℕ → Bool) : ∀ l : List ℕ,
    fetchCount (l.map fun j => PollEvent.saveAttempt j (fn j) (s j)) = 0 := by
  intro l
  induction l with
  | nil => rfl
  | cons a l ih => simp [fetchCount, List.countP_cons, ih]

theorem waitDelays_saveEvents (ad : Bool) (m t : String) (s : ℕ → Bool) (n : ℕ) :
    waitDelays (saveEvents ad m t s n) = [] := by
  cases ad with
  | false => rfl
  | true => simp only [saveEvents, if_pos rfl]; exact waitDelays_mapSave _ s (List.range n)

theorem fetchCount_saveEvents (ad : Bool) (m t : String) (s : ℕ → Bool) (n : ℕ) :
    fetchCount (saveEvents ad m t s n) = 0 := by
  cases ad with
  | false => rfl
  | true => simp only [saveEvents, if_pos rfl]; exact fetchCount_mapSave _ s (List.range n)

theorem isTerminal_saveEvents (ad : Bool) (m t : String) (s : ℕ → Bool) (n : ℕ) :
    ∀ e ∈ saveEvents ad m t s n, e.isTerminal = false := by
  intro e he
  cases ad with
  | false => simp [saveEvents] at he
  | true =>
    simp [saveEvents] at he
    obtain ⟨j, _, rfl⟩ := he
    rfl

theorem pollAux_shape (β : ℚ) (ad : Bool) (f : ℕ → PollStep) (s : ℕ → Bool) (m t : String) :
    ∀ fuel attempt, ∃ pre,
      (pollAux β ad f s m t fuel attempt).1
        = pre ++ [.terminal (pollAux β ad f s m t fuel attempt).2.tag]
      ∧ ∀ e ∈ pre, e.isTerminal = false := by
  intro fuel
  induction fuel with
  | zero => exact fun attempt => ⟨[], rfl, by simp⟩
  | succ fuel ih =>
    intro attempt
    cases hf : f (attempt + 1) with
    | thrown msg =>
      refine ⟨[.fetchStatus (attempt + 1)], ?_, ?_⟩
      · simp [pollAux, hf]
      · intro e he; simp at he; subst he; rfl
    | ok status paths =>
      by_cases hs : status = "SUCCESS"
      · refine ⟨.fetchStatus (attempt + 1) :: saveEvents ad m t s paths.length, ?_, ?_⟩
        · simp [pollAux, hf, hs]
        · intro e he
          simp at he
          rcases he with rfl | he
          · rfl
          · exact isTerminal_saveEvents ad m t s paths.length e he
      · by_cases hfl : status = "FAILURE"
        · refine ⟨[.fetchStatus (attempt + 1)], ?_, ?_⟩
          · simp [pollAux, hf, hs, hfl]
          · intro e he; simp at he; subst he; rfl
        · obtain ⟨pre, hpre, hterm⟩ := ih (attempt + 1)
          refine ⟨.fetchStatus (attempt + 1) :: .wait (backoffDelay β (attempt + 1)) :: pre, ?_, ?_⟩
          · simp [pollAux, hf, hs, hfl, hpre]
          · intro e he
            simp at he
            rcases he with rfl | rfl | he
            · rfl
            · rfl
            · exact hterm e he


theorem pollAux_isSFT (β : ℚ) (ad : Bool) (f : ℕ → PollStep) (s : ℕ → Bool) (m t : String)
    (hf : ∀ n msg, f n ≠ .thrown msg) :
    ∀ fuel attempt, (pollAux β ad f s m t fuel attempt).2.isSFT = true := by
  intro fuel
  induction fuel with
  | zero => intro _; rfl
  | succ fuel ih =>
    intro attempt
    cases hfe : f (attempt + 1) with
    | thrown msg => exact absurd hfe (hf _ _)
    | ok status paths =>
      by_cases hs : status = "SUCCESS"
      · simp [pollAux, hfe, hs, PollOutcome.isSFT]
      · by_cases hfl : status = "FAILURE"
        · simp [pollAux, hfe, hs, hfl, PollOutcome.isSFT]
        · simpa [pollAux, hfe, hs, hfl] using ih (attempt + 1)

theorem pollAux_fetchCount (β : ℚ) (ad : Bool) (f : ℕ → PollStep) (s : ℕ → Bool) (m t : String) :
    ∀ fuel attempt, fetchCount (pollAux β ad f s m t fuel attempt).1 ≤ fuel := by
  intro fuel
  induction fuel with
  | zero => intro _; simp [pollAux, fetchCount]
  | succ fuel ih =>
    intro attempt
    cases hfe : f (attempt + 1) with
    | thrown msg => simp [pollAux, hfe, fetchCount]
    | ok status paths =>
      by_cases hs : status = "SUCCESS"
      · have h0 := fetchCount_saveEvents ad m t s paths.length
        simp only [fetchCount] at h0
        simp [pollAux, hfe, hs, fetchCount, List.countP_cons, List.countP_append, h0]
      · by_cases hfl : status = "FAILURE"
        · simp [pollAux, hfe, hs, hfl, fetchCount]
        · have hrec := ih (attempt + 1)
          simp [pollAux, hfe, hs, hfl, fetchCount, List.countP_cons] at hrec ⊢
          omega

theorem pollAux_waits (β : ℚ) (ad : Bool) (f : ℕ → PollStep) (s : ℕ → Bool) (m t : String) :
    ∀ fuel attempt, ∃ k, k ≤ fuel ∧
      waitDelays (pollAux β ad f s m t fuel attempt).1
        = (List.range k).map fun j => backoffDelay β (attempt + 1 + j) := by
  intro fuel
  induction fuel with
  | zero => intro _; exact ⟨0, le_rfl, rfl⟩
  | succ fuel ih =>
    intro attempt
    cases hfe : f (attempt + 1) with
    | thrown msg => exact ⟨0, by omega, by simp [pollAux, hfe, waitDelays]⟩
    | ok status paths =>
      by_cases hs : status = "SUCCESS"
      · refine ⟨0, by omega, ?_⟩
        have h0 := waitDelays_saveEvents ad m t s paths.length
        simp only [waitDelays] at h0
        simp [pollAux, hfe, hs, waitDelays, List.filterMap_cons, List.filterMap_append, h0]
      · by_cases hfl : status = "FAILURE"
        · exact ⟨0, by omega, by simp [pollAux, hfe, hs, hfl, waitDelays]⟩
        · obtain ⟨k, hk, hw⟩ := ih (attempt + 1)
          refine ⟨k + 1, by omega, ?_⟩
          have hstep : waitDelays (pollAux β ad f s m t (fuel + 1) attempt).1
              = backoffDelay β (attempt + 1)
                :: waitDelays (pollAux β ad f s m t fuel (attempt + 1)).1 := by
            simp [pollAux, hfe, hs, hfl, waitDelays, List.filterMap_cons]
          rw [hstep, hw, List.range_succ_eq_map, List.map_cons, List.map_map]
          refine congrArg₂ List.cons (by norm_num) ?_
          refine List.map_congr_left fun j _ => ?_
          simp [Function.comp]
          congr 1
          omega

theorem backoffDelay_mono (base : ℚ) (hb : 0 ≤ base) {n m : ℕ} (h : n ≤ m) :
    backoffDelay base n ≤ backoffDelay base m := by
  unfold backoffDelay
  exact min_le_min
    (mul_le_mul_of_nonneg_left (pow_le_pow_right₀ (by norm_num) h) hb) le_rfl

theorem chain_backoff (base : ℚ) (hb : 0 ≤ base) (k a : ℕ) :
    List.Chain' (· ≤ ·) ((List.range k).map fun j => backoffDelay base (a + j)) := by
  rw [List.chain'_map]
  cases k with
  | zero => simp
  | succ k =>
    rw [List.chain'_range_succ]
    intro mm hm
    exact backoffDelay_mono base hb (by omega)

theorem pollAux_outcome_indep (β : ℚ) (ad : Bool) (f : ℕ → PollStep) (m t : String)
    (s₁ s₂ : ℕ → Bool) :
    ∀ fuel attempt, (pollAux β ad f s₁ m t fuel attempt).2
      = (pollAux β ad f s₂ m t fuel attempt).2 := by
  intro fuel
  induction fuel with
  | zero => intro _; rfl
  | succ fuel ih =>
    intro attempt
    cases hfe : f (attempt + 1) with
    | thrown msg => simp [pollAux, hfe]
    | ok status paths =>
      by_cases hs : status = "SUCCESS"
      · simp [pollAux, hfe, hs]
      · by_cases hfl : status = "FAILURE"
        · simp [pollAux, hfe, hs, hfl]
        · simpa [pollAux, hfe, hs, hfl] using ih (attempt + 1)

theorem pollAux_savesOf_completed (β : ℚ) (f : ℕ → PollStep) (s : ℕ → Bool) (m t : String) :
    ∀ fuel attempt,
      (pollAux β true f s m t fuel attempt).2 = .completed →
      ∃ a paths, attempt < a ∧ a ≤ attempt + fuel ∧ f a = .ok "SUCCESS" paths ∧
        savesOf (pollAux β true f s m t fuel attempt).1
          = (List.range paths.length).map fun j => (j, pollFilename m t j, s j) := by
  intro fuel
  induction fuel with
  | zero => intro attempt h; simp [pollAux] at h
  | succ fuel ih =>
    intro attempt h
    cases hfe : f (attempt + 1) with
    | thrown msg => simp [pollAux, hfe] at h
    | ok status paths =>
      by_cases hs : status = "SUCCESS"
      · subst hs
        refine ⟨attempt + 1, paths, by omega, by omega, hfe, ?_⟩
        have hsv := savesOf_mapSave (fun j => pollFilename m t j) s (List.range paths.length)
        simp [pollAux, hfe, savesOf, List.filterMap_cons, List.filterMap_append,
          saveEvents] at hsv ⊢
        simp [hsv]
      · by_cases hfl : status = "FAILURE"
        · simp [pollAux, hfe, hs, hfl] at h
        · have h' : (pollAux β true f s m t fuel (attempt + 1)).2 = .completed := by
            simpa [pollAux, hfe, hs, hfl] using h
          obtain ⟨a, ps, ha1, ha2, hfa, hsv⟩ := ih (attempt + 1) h'
          refine ⟨a, ps, by omega, by omega, hfa, ?_⟩
          simpa [pollAux, hfe, hs, hfl, savesOf, List.filterMap_cons] using hsv

end SonautoProxy

namespace SonautoProxy

/-! ## Theorems -/

theorem digitChar_injOn : ∀ d₁ < 10, ∀ d₂ < 10,
    Nat.digitChar d₁ = Nat.digitChar d₂ → d₁ = d₂ := by decide

theorem digitChar_isDigit : ∀ d < 10, (Nat.digitChar d).isDigit = true := by decide

theorem map_digitChar_inj : ∀ l₁ l₂ : List ℕ, (∀ d ∈ l₁, d < 10) → (∀ d ∈ l₂, d < 10) →
    l₁.map Nat.digitChar = l₂.map Nat.digitChar → l₁ = l₂ := by
  intro l₁
  induction l₁ with
  | nil => intro l₂ _ _ h; cases l₂ <;> simp_all
  | cons a l ih =>
    intro l₂ h₁ h₂ h
    cases l₂ with
    | nil => simp at h
    | cons b l' =>
      simp only [List.map_cons, List.cons.injEq] at h
      have ha : a = b := digitChar_injOn a (h₁ a (by simp)) b (h₂ b (by simp)) h.1
      have : l = l' := ih l' (fun d hd => h₁ d (by simp [hd])) (fun d hd => h₂ d (by simp [hd])) h.2
      simp [ha, this]

theorem digitsAux_eq_digits : ∀ fuel m, m ≤ fuel → digitsAux fuel m = Nat.digits 10 m := by
  intro fuel
  induction fuel with
  | zero =>
    intro m hm
    have : m = 0 := Nat.le_zero.mp hm
    subst this
    simp [digitsAux]
  | succ fuel ih =>
    intro m hm
    by_cases h0 : m = 0
    · subst h0; simp [digitsAux]
    · have hpos : 0 < m := Nat.pos_of_ne_zero h0
      have hdiv : m / 10 ≤ fuel :=
        Nat.le_of_lt_succ (Nat.lt_of_lt_of_le (Nat.div_lt_self hpos (by norm_num)) hm)
      rw [digitsAux, if_neg h0, ih (m / 10) hdiv,
        ← Nat.digits_def' (by norm_num : 1 < 10) hpos]

theorem natToString_eq_digits (n : ℕ) :
    natToString n = if n = 0 then "0" else ⟨((Nat.digits 10 n).map Nat.digitChar).reverse⟩ := by
  unfold natToString
  rw [digitsAux_eq_digits n n le_rfl]

theorem natToString_injective : Function.Injective natToString := by
  intro m n h
  rw [natToString_eq_digits, natToString_eq_digits] at h
  by_cases hm : m = 0 <;> by_cases hn : n = 0
  · omega
  · exfalso
    simp only [hm, if_pos rfl, if_neg hn] at h
    have hd : ((Nat.digits 10 n).map Nat.digitChar).reverse = ['0'] := by
      have := congrArg String.data h
      simpa using this.symm
    have : (Nat.digits 10 n).map Nat.digitChar = ['0'] := by
      rw [← List.reverse_reverse ((Nat.digits 10 n).map Nat.digitChar), hd]; rfl
    have hdig : Nat.digits 10 n = [0] := by
      have := map_digitChar_inj (Nat.digits 10 n) [0]
        (fun d hd => Nat.digits_lt_base (by norm_num) hd) (by simp) (by simpa using this)
      exact this
    have := Nat.ofDigits_digits 10 n
    rw [hdig] at this
    simp [Nat.ofDigits] at this
    exact hn this.symm
  · exfalso
    simp only [hn, if_pos rfl, if_neg hm] at h
    have hd : ((Nat.digits 10 m).map Nat.digitChar).reverse = ['0'] := by
      have := congrArg String.data h
      simpa using this
    have : (Nat.digits 10 m).map Nat.digitChar = ['0'] := by
      rw [← List.reverse_reverse ((Nat.digits 10 m).map Nat.digitChar), hd]; rfl
    have hdig : Nat.digits 10 m = [0] := by
      have := map_digitChar_inj (Nat.digits 10 m) [0]
        (fun d hd => Nat.digits_lt_base (by norm_num) hd) (by simp) (by simpa using this)
      exact this
    have := Nat.ofDigits_digits 10 m
    rw [hdig] at this
    simp [Nat.ofDigits] at this
    exact hm this.symm
  · simp only [if_neg hm, if_neg hn] at h
    have hd := congrArg String.data h
    simp only [] at hd
    have hrev : ((Nat.digits 10 m).map Nat.digitChar).reverse
        = ((Nat.digits 10 n).map Nat.digitChar).reverse := hd
    have hmap : (Nat.digits 10 m).map Nat.digitChar = (Nat.digits 10 n).map Nat.digitChar :=
      List.reverse_injective hrev
    have hdig : Nat.digits 10 m = Nat.digits 10 n :=
      map_digitChar_inj _ _ (fun d hd => Nat.digits_lt_base (by norm_num) hd)
        (fun d hd => Nat.digits_lt_base (by norm_num) hd) hmap
    have := congrArg (Nat.ofDigits 10) hdig
    rwa [Nat.ofDigits_digits, Nat.ofDigits_digits] at this

/-- Every character of `natToString n` is a decimal digit. -/
theorem natToString_chars_digit (n : ℕ) : ∀ c ∈ (natToString n).data, c.isDigit = true := by
  intro c hc
  rw [natToString_eq_digits] at hc
  by_cases hn : n = 0
  · simp [hn] at hc
    rw [hc]; decide
  · simp only [if_neg hn] at hc
    simp only [List.mem_reverse, List.mem_map] at hc
    obtain ⟨d, hd, rfl⟩ := hc
    exact digitChar_isDigit d (Nat.digits_lt_base (by norm_num) hd)

theorem strMk_inj {l₁ l₂ : List Char} (h : l₁ = l₂) : String.mk l₁ = String.mk l₂ :=
  congrArg String.mk h

theorem flatten_encChar (l : List Char) (h : l.all uriUnreserved = true) :
    (l.map encChar).flatten = l := by
  induction l with
  | nil => rfl
  | cons c l ih =>
    simp only [List.all_cons, Bool.and_eq_true] at h
    simp [encChar, h.1, ih h.2]

theorem encodeURIComponent_unreserved (s : String) (h : s.data.all uriUnreserved = true) :
    encodeURIComponent s = s := by
  unfold encodeURIComponent
  cases s with
  | mk l => exact strMk_inj (flatten_encChar l h)

/-- Claim C1 (code-bug evidence). The URL
`https://sonauto.ai.evil.com/track.mp3` has hostname `sonauto.ai.evil.com`,
which is neither the provider domain `sonauto.ai` nor a host under it; yet
`isAllowedTrackHostname` accepts it (the check passes any hostname that
merely *contains* `sonauto.ai` as a substring), so the `/download?url=`
handler performs one outbound fetch and streams the response instead of
rejecting with 400 `Track URL not allowed` and zero outbound requests. -/
theorem C1_ssrf_guard_bypassed :
    isAllowedTrackHostname (some "sonauto.ai.evil.com") = true ∧
    downloadUrlHandler (some "https://sonauto.ai.evil.com/track.mp3")
        (fun _ => some "sonauto.ai.evil.com") (fun _ => .ok (some "audio/mpeg"))
      = (.streamed "audio/mpeg", 1) := by decide

/-- Claim C5 (counterexample). With the S3 mirror enabled, the upstream fetch
and the primary local write both succeeding, and the mirror upload failing,
`downloadAndSaveTrack` does *not* complete with its success value: the
rejected `s3.putObject` promise propagates out of the function as a thrown
error (there is no try/catch around it), even though the local file was
already written. -/
theorem C5_counterexample :
    downloadAndSaveTrack ⟨true, true, true, false⟩ "custom_lyrics_t_1.mp3"
      = (.threw "s3 putObject rejected", true) := by decide

/-- Claim C5 (amended). When the fetch and the primary local write succeed,
the local file is written and stays written (the mirror upload happens
strictly after it), but a mirror failure propagates to the caller as a
thrown error rather than being logged and swallowed. -/
theorem C5_local_write_survives_mirror_failure (env : SaveEnv) (fn : String)
    (hf : env.fetchOk = true) (hw : env.writeOk = true) :
    (downloadAndSaveTrack env fn).2 = true ∧
    (env.mirrorEnabled = true → env.mirrorOk = false →
      (downloadAndSaveTrack env fn).1 = .threw "s3 putObject rejected") := by
  obtain ⟨f, w, me, mo⟩ := env
  simp only at hf hw
  subst hf hw
  cases me <;> cases mo <;> simp [downloadAndSaveTrack]

/-- Claim C5 (witness): the amended theorem at a concrete environment. -/
theorem C5_witness :
    (downloadAndSaveTrack ⟨true, true, true, false⟩ "f.mp3").2 = true ∧
    ((true : Bool) = true → (false : Bool) = false →
      (downloadAndSaveTrack ⟨true, true, true, false⟩ "f.mp3").1
        = .threw "s3 putObject rejected") :=
  C5_local_write_survives_mirror_failure ⟨true, true, true, false⟩ "f.mp3" rfl rfl

/-- Claim C10 (confirmed). Any generation request with mode `instrumental` and
no (truthy) prompt, on the default/sonauto engine with the server API key
present, passes validation and is submitted upstream with the fixed default
prompt substituted and the `instrumental` flag set. -/
theorem C10_instrumental_default_prompt (p : GeneratePayload)
    (he : engineOf p ≠ "acestep") (hm : p.mode = some "instrumental")
    (hp : truthy p.prompt = false) :
    routeGenerate true p = .submitSonauto
      { prompt := some "A calm instrumental composition with warm piano and ambient sounds."
        instrumental := true
        num_songs := numGetD p.num_songs 2
        output_format := "mp3"
        prompt_strength := ratGetD p.prompt_strength 2
        balance_strength := ratGetD p.balance_strength (7 / 10) } := by
  simp +decide [routeGenerate, he, hm, truthyGetD, hp]

/-- Claim C10 (witness): the theorem at the concrete payload
`{mode: 'instrumental'}`. -/
theorem C10_witness :
    routeGenerate true { mode := some "instrumental" } = .submitSonauto
      { prompt := some "A calm instrumental composition with warm piano and ambient sounds."
        instrumental := true
        num_songs := numGetD none 2
        output_format := "mp3"
        prompt_strength := ratGetD none 2
        balance_strength := ratGetD none (7 / 10) } :=
  C10_instrumental_default_prompt { mode := some "instrumental" }
    (by decide) rfl rfl

/-- Claim C4 (counterexample). A `POST /generate` body that omits `mode` but
selects `engine: 'acestep'` is *not* rejected: the router never validates it,
responds 200 `{taskId}` (a task is created), and one outbound provider call
is made — contradicting the claim that every mode-less request gets a 400
with no outbound call and no task. -/
theorem C4_counterexample :
    (routeGenerate true { engine := some "acestep" }).isReject = false ∧
    generateOutbound true { engine := some "acestep" } = 1 ∧
    generateHandler true true { engine := some "acestep" }
        (fun _ => .thrown "unreached") 1712345678901
      = .acestepAccepted "acestep-1712345678901" := by decide

/-- Claim C4 (amended). For requests whose engine is not `acestep` (the engine
defaults to `sonauto` when absent or empty): a body that omits `mode`, or has
mode `custom` without truthy lyrics, or mode `prompt` without a truthy
prompt, is rejected with the 400 error response before any outbound provider
call, and no task is created. (Requests with `engine: 'acestep'` bypass this
validation entirely.) -/
theorem C4_sonauto_validation_rejects (apiKey : Bool) (p : GeneratePayload)
    (he : engineOf p ≠ "acestep")
    (hbad : p.mode = none ∨ (p.mode = some "custom" ∧ truthy p.lyrics = false)
      ∨ (p.mode = some "prompt" ∧ truthy p.prompt = false)) :
    (routeGenerate apiKey p).isReject = true ∧ generateOutbound apiKey p = 0 := by
  have main : (routeGenerate apiKey p).isReject = true := by
    cases apiKey with
    | false => simp [routeGenerate, he, GenerateAction.isReject]
    | true =>
      rcases hbad with hm | ⟨hm, hl⟩ | ⟨hm, hpr⟩
      · simp +decide [routeGenerate, he, hm, GenerateAction.isReject]
      · simp +decide [routeGenerate, he, hm, hl, GenerateAction.isReject]
      · simp +decide [routeGenerate, he, hm, hpr, GenerateAction.isReject]
  refine ⟨main, ?_⟩
  unfold generateOutbound
  cases hr : routeGenerate apiKey p with
  | reject m => rfl
  | acestep c => rw [hr] at main; simp [GenerateAction.isReject] at main
  | submitSonauto sp => rw [hr] at main; simp [GenerateAction.isReject] at main

/-- Claim C4 (witness): the amended theorem at the concrete payload `{}`
(mode omitted, engine defaulting to `sonauto`). -/
theorem C4_witness :
    (routeGenerate true ({ } : GeneratePayload)).isReject = true ∧
    generateOutbound true ({ } : GeneratePayload) = 0 :=
  C4_sonauto_validation_rejects true { } (by decide) (Or.inl rfl)

theorem routeGenerate_acestep_engine (k : Bool) (p : GeneratePayload) (c : AcestepCall)
    (h : routeGenerate k p = .acestep c) : engineOf p = "acestep" := by
  by_contra he
  unfold routeGenerate at h
  rw [if_neg he] at h
  repeat' split at h
  all_goals simp at h

theorem append_acestep_ne_empty (s : String) : "acestep-" ++ s ≠ "" := by
  intro h
  have := congrArg String.data h
  rw [String.data_append] at this
  simp at this

theorem truthy_ne_empty {x : Option String} (h : truthy x = true) : jsInterp x ≠ "" := by
  cases x with
  | none => simp [truthy] at h
  | some s =>
    intro hs
    simp only [jsInterp] at hs
    subst hs
    exact absurd h (by decide)

/-- Claim C9 (counterexample). The acestep request
`{engine:'acestep', mode:'custom', lyrics:'hello'}` is accepted (a 200 with
a task id is returned), yet its response body is `{taskId}` with no
`status: 'SUBMITTED'` field — refuting the claim that every accepted
request gets `{status: 'SUBMITTED', taskId}`. -/
theorem C9_counterexample :
    (generateHandler true true
        { engine := some "acestep", mode := some "custom", lyrics := some "hello" }
        (fun _ => .thrown "unreached") 1712).isAccepted = true ∧
    (generateHandler true true
        { engine := some "acestep", mode := some "custom", lyrics := some "hello" }
        (fun _ => .thrown "unreached") 1712).isSubmittedBody = false := by decide

/-- Claim C9 (amended). Every accepted `/generate` request is answered with a
non-empty task id; for a non-acestep engine the accepted body is
`{status: 'SUBMITTED', taskId}`, while the acestep engine answers `{taskId}`
(no status field) with the synthesized id `acestep-<Date.now()>`. Every
validation rejection (with the client key accepted) is the 400
`{status: 'ERROR', message}` response. -/
theorem C9_generate_response_contract (clientOk apiKey : Bool) (p : GeneratePayload)
    (upstream : SonautoPayload → UpstreamGen) (now : ℕ) :
    ((generateHandler clientOk apiKey p upstream now).isAccepted = true →
      ∃ t, t ≠ "" ∧ (generateHandler clientOk apiKey p upstream now = .submitted t
        ∨ generateHandler clientOk apiKey p upstream now = .acestepAccepted t)) ∧
    (engineOf p ≠ "acestep" → (generateHandler clientOk apiKey p upstream now).isAccepted = true →
      ∃ t, t ≠ "" ∧ generateHandler clientOk apiKey p upstream now = .submitted t) ∧
    (engineOf p = "acestep" → clientOk = true →
      generateHandler clientOk apiKey p upstream now
        = .acestepAccepted ("acestep-" ++ natToString now)) ∧
    ((routeGenerate apiKey p).isReject = true → clientOk = true →
      ∃ m, generateHandler clientOk apiKey p upstream now = .badRequest m) := by
  cases clientOk with
  | false =>
    simp [generateHandler, GenerateResponse.isAccepted]
  | true =>
    cases hr : routeGenerate apiKey p with
    | acestep c =>
      have he := routeGenerate_acestep_engine apiKey p c hr
      refine ⟨?_, ?_, ?_, ?_⟩
      · intro _
        exact ⟨_, append_acestep_ne_empty (natToString now), Or.inr (by simp [generateHandler, hr])⟩
      · intro h'; exact absurd he h'
      · intro _ _; simp [generateHandler, hr]
      · intro hrj; simp [GenerateAction.isReject] at hrj
    | reject m =>
      refine ⟨?_, ?_, ?_, ?_⟩
      · intro hacc; simp [generateHandler, hr, GenerateResponse.isAccepted] at hacc
      · intro _ hacc; simp [generateHandler, hr, GenerateResponse.isAccepted] at hacc
      · intro he' _
        exfalso
        unfold routeGenerate at hr
        rw [if_pos he'] at hr
        simp at hr
      · intro _ _; exact ⟨m, by simp [generateHandler, hr]⟩
    | submitSonauto sp =>
      have hne : engineOf p ≠ "acestep" := by
        intro he'
        unfold routeGenerate at hr
        rw [if_pos he'] at hr
        simp at hr
      cases hu : upstream sp with
      | thrown m =>
        refine ⟨?_, ?_, ?_, ?_⟩
        · intro hacc; simp [generateHandler, hr, hu, GenerateResponse.isAccepted] at hacc
        · intro _ hacc; simp [generateHandler, hr, hu, GenerateResponse.isAccepted] at hacc
        · intro he' _; exact absurd he' hne
        · intro hrj; simp [GenerateAction.isReject] at hrj
      | ok tid id =>
        by_cases ht : truthy tid = true
        · refine ⟨?_, ?_, ?_, ?_⟩
          · intro _
            exact ⟨jsInterp tid, truthy_ne_empty ht, Or.inl (by simp [generateHandler, hr, hu, ht])⟩
          · intro _ _
            exact ⟨jsInterp tid, truthy_ne_empty ht, by simp [generateHandler, hr, hu, ht]⟩
          · intro he' _; exact absurd he' hne
          · intro hrj; simp [GenerateAction.isReject] at hrj
        · by_cases hid : truthy id = true
          · refine ⟨?_, ?_, ?_, ?_⟩
            · intro _
              exact ⟨jsInterp id, truthy_ne_empty hid,
                Or.inl (by simp [generateHandler, hr, hu, ht, hid])⟩
            · intro _ _
              exact ⟨jsInterp id, truthy_ne_empty hid,
                by simp [generateHandler, hr, hu, ht, hid]⟩
            · intro he' _; exact absurd he' hne
            · intro hrj; simp [GenerateAction.isReject] at hrj
          · refine ⟨?_, ?_, ?_, ?_⟩
            · intro hacc
              simp [generateHandler, hr, hu, ht, hid, GenerateResponse.isAccepted] at hacc
            · intro _ hacc
              simp [generateHandler, hr, hu, ht, hid, GenerateResponse.isAccepted] at hacc
            · intro he' _; exact absurd he' hne
            · intro hrj; simp [GenerateAction.isReject] at hrj

/-- Claim C9 (witness): the amended theorem's acestep clause at a concrete
request, and its rejection clause at a concrete invalid request. -/
theorem C9_witness :
    generateHandler true true { engine := some "acestep" } (fun _ => .thrown "x") 99
      = .acestepAccepted ("acestep-" ++ natToString 99) :=
  (C9_generate_response_contract true true { engine := some "acestep" }
    (fun _ => .thrown "x") 99).2.2.1 (by decide) rfl

/-- Claim C3 (confirmed). Any `/status/{taskId}` query with the `acestep-`
prefix is answered purely from the store: zero upstream calls; if the
artifact `<taskId>.mp3` exists the response is the mocked SUCCESS carrying
the deterministic locator `/download/<encodeURIComponent(taskId)>`
(which is `/download/<taskId>` verbatim whenever the id consists of
URI-unreserved characters, as all generated ids `acestep-<digits>` do);
otherwise it is the mocked PROCESSING; it is never a FAILURE. -/
theorem C3_acestep_status_pure (apiKey : Bool) (fileExists : String → Bool)
    (upstream : String → PollStep) (taskId : String)
    (hpre : strStartsWith taskId "acestep-" = true) :
    (statusHandler apiKey fileExists upstream taskId).2 = 0 ∧
    (fileExists (taskId ++ ".mp3") = true →
      (statusHandler apiKey fileExists upstream taskId).1
        = .mockSuccess ["/download/" ++ encodeURIComponent taskId]) ∧
    (fileExists (taskId ++ ".mp3") = false →
      (statusHandler apiKey fileExists upstream taskId).1 = .mockProcessing) ∧
    (statusHandler apiKey fileExists upstream taskId).1.isFailure = false ∧
    (taskId.data.all uriUnreserved = true → encodeURIComponent taskId = taskId) := by
  have h2 := encodeURIComponent_unreserved taskId
  cases hfe : fileExists (taskId ++ ".mp3") <;>
    simp [statusHandler, hpre, hfe, StatusResponse.isFailure] <;>
    exact fun hall => h2 (List.all_eq_true.mpr hall)

/-- Claim C3 (witness): the theorem at the concrete id `acestep-1712` with the
artifact present, and the locator evaluated. -/
theorem C3_witness :
    (statusHandler true (fun _ => true) (fun _ => .thrown "x") "acestep-1712").1
      = .mockSuccess ["/download/" ++ encodeURIComponent "acestep-1712"] :=
  (C3_acestep_status_pure true (fun _ => true) (fun _ => .thrown "x") "acestep-1712"
    (by decide)).2.1 rfl


/-- Claim C2 (confirmed). For any polling configuration with a non-negative
base delay: the delay computed before attempt `n`'s successor equals
`min(baseDelay * 1.2^n, 20000)`; the sequence of delays actually slept in a
run is the backoff formula applied to attempts `1, 2, …, k` for some
`k ≤ maxAttempts` and is non-decreasing; and the number of outbound
`fetchStatus` calls never exceeds `maxAttempts`. -/
theorem C2_backoff_policy (maxAttempts : ℕ) (base : ℚ) (ad : Bool)
    (fetch : ℕ → PollStep) (saveOk : ℕ → Bool) (mode taskId : String)
    (hb : 0 ≤ base) :
    (∀ n, backoffDelay base n = min (base * (6 / 5) ^ n) 20000) ∧
    (∃ k, k ≤ maxAttempts ∧
      waitDelays (handlePolling maxAttempts base ad fetch saveOk mode taskId).1
        = (List.range k).map fun j => backoffDelay base (j + 1)) ∧
    List.Chain' (· ≤ ·)
      (waitDelays (handlePolling maxAttempts base ad fetch saveOk mode taskId).1) ∧
    fetchCount (handlePolling maxAttempts base ad fetch saveOk mode taskId).1 ≤ maxAttempts := by
  obtain ⟨k, hk, hw⟩ := pollAux_waits base ad fetch saveOk mode taskId maxAttempts 0
  have hw' : waitDelays (handlePolling maxAttempts base ad fetch saveOk mode taskId).1
      = (List.range k).map fun j => backoffDelay base (j + 1) := by
    rw [handlePolling, hw]
    exact List.map_congr_left fun j _ => by congr 1; omega
  refine ⟨fun n => rfl, ⟨k, hk, hw'⟩, ?_, pollAux_fetchCount base ad fetch saveOk mode taskId maxAttempts 0⟩
  rw [hw']
  have := chain_backoff base hb k 1
  have heq : ((List.range k).map fun j => backoffDelay base (1 + j))
      = (List.range k).map fun j => backoffDelay base (j + 1) :=
    List.map_congr_left fun j _ => by congr 1; omega
  rw [heq] at this
  exact this

/-- Claim C2 (witness): the theorem at the default configuration
(60 attempts, 4000 ms base) with an always-processing upstream. -/
theorem C2_witness :
    fetchCount (handlePolling 60 4000 false (fun _ => .ok "PROCESSING" [])
      (fun _ => true) "custom" "t1").1 ≤ 60 :=
  (C2_backoff_policy 60 4000 false (fun _ => .ok "PROCESSING" [])
    (fun _ => true) "custom" "t1" (by norm_num)).2.2.2

/-- Claim C7 (confirmed). Every polling run emits exactly one terminal event,
as the last event of its trace — no `fetchStatus` call and no state
transition occurs after it; the number of polls is bounded by the attempt
maximum; and when the upstream never throws, the unique terminal outcome
is one of SUCCESS, FAILURE, TIMEOUT. -/
theorem C7_terminal_once (maxAttempts : ℕ) (base : ℚ) (ad : Bool)
    (fetch : ℕ → PollStep) (saveOk : ℕ → Bool) (mode taskId : String) :
    (∃ pre, (handlePolling maxAttempts base ad fetch saveOk mode taskId).1
        = pre ++ [.terminal (handlePolling maxAttempts base ad fetch saveOk mode taskId).2.tag]
      ∧ ∀ e ∈ pre, e.isTerminal = false) ∧
    fetchCount (handlePolling maxAttempts base ad fetch saveOk mode taskId).1 ≤ maxAttempts ∧
    ((∀ n msg, fetch n ≠ .thrown msg) →
      (handlePolling maxAttempts base ad fetch saveOk mode taskId).2.isSFT = true) := by
  refine ⟨pollAux_shape base ad fetch saveOk mode taskId maxAttempts 0,
    pollAux_fetchCount base ad fetch saveOk mode taskId maxAttempts 0,
    fun hf => pollAux_isSFT base ad fetch saveOk mode taskId hf maxAttempts 0⟩

/-- Claim C7 (witness): the theorem at a concrete two-attempt run that times
out, discharging the never-throws hypothesis. -/
theorem C7_witness :
    (handlePolling 2 4000 false (fun _ => .ok "PROCESSING" [])
      (fun _ => true) "custom" "t1").2.isSFT = true :=
  (C7_terminal_once 2 4000 false (fun _ => .ok "PROCESSING" [])
    (fun _ => true) "custom" "t1").2.2 (fun n msg h => by simp at h)

/-- Claim C6 (confirmed). With auto-save enabled, the per-artifact save results
have no influence on the run's outcome (a failed save never demotes a
SUCCESS), and every run that completes successfully attempted a save for
*every* output index of the successful upstream response — one failed
artifact does not abort its siblings. -/
theorem C6_per_artifact_isolation (maxA : ℕ) (base : ℚ) (fetch : ℕ → PollStep)
    (mode taskId : String) (s₁ s₂ : ℕ → Bool) :
    (handlePolling maxA base true fetch s₁ mode taskId).2
      = (handlePolling maxA base true fetch s₂ mode taskId).2 ∧
    ((handlePolling maxA base true fetch s₁ mode taskId).2 = .completed →
      ∃ a paths, 0 < a ∧ a ≤ maxA ∧ fetch a = .ok "SUCCESS" paths ∧
        savesOf (handlePolling maxA base true fetch s₁ mode taskId).1
          = (List.range paths.length).map fun j => (j, pollFilename mode taskId j, s₁ j)) := by
  refine ⟨pollAux_outcome_indep base true fetch mode taskId s₁ s₂ maxA 0, fun hc => ?_⟩
  obtain ⟨a, paths, ha1, ha2, hfa, hsv⟩ :=
    pollAux_savesOf_completed base fetch s₁ mode taskId maxA 0 hc
  exact ⟨a, paths, ha1, by omega, hfa, hsv⟩

/-- Claim C6 (witness): the theorem at a concrete run whose first artifact
save fails and whose second succeeds, against an all-successful run. -/
theorem C6_witness :
    (handlePolling 5 4000 true
        (fun n => if n = 2 then .ok "SUCCESS" ["u1", "u2"] else .ok "PROCESSING" [])
        (fun j => decide (j ≠ 0)) "custom" "t1").2
      = (handlePolling 5 4000 true
        (fun n => if n = 2 then .ok "SUCCESS" ["u1", "u2"] else .ok "PROCESSING" [])
        (fun _ => true) "custom" "t1").2 :=
  (C6_per_artifact_isolation 5 4000
    (fun n => if n = 2 then .ok "SUCCESS" ["u1", "u2"] else .ok "PROCESSING" [])
    "custom" "t1" (fun j => decide (j ≠ 0)) (fun _ => true)).1


/-! ### Filename-derivation lemmas (C8) -/

theorem split_last_underscore : ∀ (u₁ v₁ u₂ v₂ : List Char),
    '_' ∉ v₁ → '_' ∉ v₂ → u₁ ++ '_' :: v₁ = u₂ ++ '_' :: v₂ → u₁ = u₂ ∧ v₁ = v₂ := by
  intro u₁
  induction u₁ with
  | nil =>
    intro v₁ u₂ v₂ h1 h2 h
    cases u₂ with
    | nil => simpa using h
    | cons c u₂' =>
      simp at h
      exfalso
      apply h1
      rw [h.2]
      simp
  | cons c u₁' ih =>
    intro v₁ u₂ v₂ h1 h2 h
    cases u₂ with
    | nil =>
      simp at h
      exfalso
      apply h2
      rw [← h.2]
      simp
    | cons d u₂' =>
      simp at h
      obtain ⟨rfl, h'⟩ := h
      obtain ⟨hu, hv⟩ := ih v₁ u₂' v₂ h1 h2 h'
      exact ⟨by rw [hu], hv⟩

theorem strData_inj {s₁ s₂ : String} (h : s₁.data = s₂.data) : s₁ = s₂ := by
  cases s₁
  cases s₂
  exact congrArg String.mk h

theorem underscore_not_in_tail (j : ℕ) :
    '_' ∉ (natToString (j + 1)).data ++ (".mp3").data := by
  intro h
  rcases List.mem_append.mp h with h | h
  · exact absurd (natToString_chars_digit _ '_' h) (by decide)
  · revert h
    decide

theorem pollFilename_data (m t : String) (j : ℕ) :
    (pollFilename m t j).data
      = ((baseName m).data ++ '_' :: t.data)
        ++ '_' :: ((natToString (j + 1)).data ++ (".mp3").data) := by
  simp [pollFilename, String.data_append]

/-- Claim C8 (confirmed). For the three request modes, distinct
(mode, task id, output index) triples always derive distinct artifact
filenames, so no two concurrent writers ever target the same name. -/
theorem C8_filename_distinct (m₁ m₂ t₁ t₂ : String) (j₁ j₂ : ℕ)
    (hm₁ : m₁ = "custom" ∨ m₁ = "prompt" ∨ m₁ = "instrumental")
    (hm₂ : m₂ = "custom" ∨ m₂ = "prompt" ∨ m₂ = "instrumental")
    (hne : (m₁, t₁, j₁) ≠ (m₂, t₂, j₂)) :
    pollFilename m₁ t₁ j₁ ≠ pollFilename m₂ t₂ j₂ := by
  intro heq
  apply hne
  have hd := congrArg String.data heq
  rw [pollFilename_data, pollFilename_data] at hd
  obtain ⟨hU, hV⟩ := split_last_underscore _ _ _ _
    (underscore_not_in_tail j₁) (underscore_not_in_tail j₂) hd
  have hj : j₁ = j₂ := by
    have hr : (natToString (j₁ + 1)).data = (natToString (j₂ + 1)).data :=
      List.append_cancel_right hV
    have := natToString_injective (strData_inj hr)
    omega
  have hmt : m₁ = m₂ ∧ t₁ = t₂ := by
    rcases hm₁ with rfl | rfl | rfl <;> rcases hm₂ with rfl | rfl | rfl <;>
      simp +decide [baseName] at hU <;>
      exact ⟨rfl, strData_inj hU⟩
  rw [hmt.1, hmt.2, hj]

/-- Claim C8 (witness): two concrete distinct triples and their distinct
filenames. -/
theorem C8_witness :
    pollFilename "custom" "t" 0 ≠ pollFilename "prompt" "t" 0 :=
  C8_filename_distinct "custom" "prompt" "t" "t" 0 0
    (Or.inl rfl) (Or.inr (Or.inl rfl)) (by decide)

end SonautoProxy
